import Mathlib

/-!
Verification of the document-ingestion and role-filtered retrieval core of the
knowledge-assistant backend (`backend/app/services/document_ingestion.py` and
the retrieval-tool scoring in `backend/app/services/rag_pipeline.py`).

The Python code is shallowly embedded: pure functions become Lean functions,
the `try/except` structure of the pipeline becomes `Except`-valued stage
outcomes, and the Chroma vector-store collection becomes an explicit
association list threaded through the pipeline.
-/

namespace KnowledgeAssistant

/-! ## Access filter (`DocumentIngestionPipeline._build_access_filter`)

The Python method builds a Chroma `where` clause: a dict with optional keys
`"access_level"` (an `$in` list of strings) and `"department"` (an `$in` list
that may contain `None`), returning Python `None` when the dict is empty.
-/

/-- A record's metadata as seen by the access predicate: its access level and
its (nullable) department tag. -/
structure MetaRecord where
  access_level : String
  department : Option String
deriving DecidableEq, Repr

/-- The filter dict built by `_build_access_filter`: the optional
`"access_level": {"$in": [...]}` entry and the optional
`"department": {"$in": [...]}` entry (whose list may contain `None`,
represented as `none`). -/
structure AccessFilter where
  access_level : Option (List String)
  department : Option (List (Option String))
deriving DecidableEq, Repr

/-- Embedding of `DocumentIngestionPipeline._build_access_filter(user_role,
department)`.  Mirrors the Python branch structure: `employee` and `manager`
set the `access_level` condition, `admin` sets nothing, any other role string
falls through all branches; the `department` condition is added only when the
Python truthiness test `if department and user_role != "admin"` passes (so a
`None` or empty-string department adds nothing); an empty dict is returned as
Python `None`. -/
def build_access_filter (user_role : String) (department : Option String) :
    Option AccessFilter :=
  let al : Option (List String) :=
    if user_role = "employee" then some ["employee"]
    else if user_role = "manager" then some ["employee", "manager"]
    else none
  let dep : Option (List (Option String)) :=
    match department with
    | some d => if d ≠ "" ∧ user_role ≠ "admin" then some [some d, none] else none
    | none => none
  match al, dep with
  | none, none => none
  | al, dep => some ⟨al, dep⟩

/-- Semantics of the built `where` clause on one stored record: a missing
filter (Python `None`) admits everything; each present `$in` entry requires
membership of the record's corresponding field; multiple entries conjoin. -/
def matchesFilter (f : Option AccessFilter) (r : MetaRecord) : Bool :=
  match f with
  | none => true
  | some fl =>
      (match fl.access_level with
       | none => true
       | some vs => vs.contains r.access_level) &&
      (match fl.department with
       | none => true
       | some vs => vs.contains r.department)

/-- C1: the claim says an unknown role value yields the `employee` (least
privilege) predicate and never the unrestricted admin predicate.  The code
violates this: an unknown role falls through every branch, so with no
department the built filter is Python `None` — exactly the unrestricted
predicate the admin gets — and a record of `admin` access level is admitted,
which the genuine employee filter rejects. -/
theorem unknown_role_filter_fails_open :
    build_access_filter "contractor" none = none ∧
    build_access_filter "admin" none = none ∧
    build_access_filter "employee" none = some ⟨some ["employee"], none⟩ ∧
    matchesFilter (build_access_filter "contractor" none) ⟨"admin", none⟩ = true ∧
    matchesFilter (build_access_filter "employee" none) ⟨"admin", none⟩ = false := by
  decide

/-- C2: for every department argument, the `employee` filter admits only
records of access level `employee`; the `manager` filter admits only access
levels in `{employee, manager}`, and with no department it admits exactly
those; the `admin` filter is Python `None` — no restriction at all. -/
theorem access_filter_role_levels :
    (∀ dept r, matchesFilter (build_access_filter "employee" dept) r = true →
      r.access_level = "employee") ∧
    (∀ dept r, matchesFilter (build_access_filter "manager" dept) r = true →
      r.access_level = "employee" ∨ r.access_level = "manager") ∧
    (∀ r, matchesFilter (build_access_filter "manager" none) r = true ↔
      (r.access_level = "employee" ∨ r.access_level = "manager")) ∧
    (∀ dept, build_access_filter "admin" dept = none) := by
  refine ⟨?_, ?_, ?_, ?_⟩
  · intro dept r h
    cases dept with
    | none => simpa [build_access_filter, matchesFilter] using h
    | some d =>
        by_cases hd : d = ""
        · simp_all [build_access_filter, matchesFilter]
        · simp_all [build_access_filter, matchesFilter]
  · intro dept r h
    cases dept with
    | none => simpa [build_access_filter, matchesFilter] using h
    | some d =>
        by_cases hd : d = ""
        · simp_all [build_access_filter, matchesFilter]
        · simp_all [build_access_filter, matchesFilter]
  · intro r
    simp [build_access_filter, matchesFilter]
  · intro dept
    cases dept with
    | none => rfl
    | some d => simp [build_access_filter]

/-- Witness for `access_filter_role_levels` at a concrete record. -/
theorem access_filter_role_levels_witness :
    (MetaRecord.mk "employee" none).access_level = "employee" :=
  access_filter_role_levels.1 none ⟨"employee", none⟩ (by decide)

/-- C3 counterexample: the claim says every non-admin role with a non-null
department argument gets a filter requiring the record's department to be
that department or null.  With the non-null department `""` the Python
truthiness test `if department and ...` fails, no department condition is
added, and a record tagged with an unrelated department is admitted. -/
theorem empty_department_filter_unscoped :
    build_access_filter "employee" (some "") = some ⟨some ["employee"], none⟩ ∧
    matchesFilter (build_access_filter "employee" (some ""))
      ⟨"employee", some "Finance"⟩ = true := by
  decide

/-- C3 amended: for every non-admin role with a non-null and *non-empty*
department argument, the filter admits only records whose department is that
department or null; for role `admin` the department argument adds no
condition at all (the filter stays Python `None`). -/
theorem department_scoping (role d : String) (r : MetaRecord)
    (hrole : role ≠ "admin") (hd : d ≠ "")
    (h : matchesFilter (build_access_filter role (some d)) r = true) :
    r.department = some d ∨ r.department = none := by
  by_cases h1 : role = "employee"
  · simp_all [build_access_filter, matchesFilter]
  · by_cases h2 : role = "manager"
    · simp_all [build_access_filter, matchesFilter]
    · simp_all [build_access_filter, matchesFilter]

/-- Witness for `department_scoping` at a concrete role, department and
record. -/
theorem department_scoping_witness :
    (MetaRecord.mk "employee" none).department = some "Sales" ∨
    (MetaRecord.mk "employee" none).department = none :=
  department_scoping "employee" "Sales" ⟨"employee", none⟩
    (by decide) (by decide) (by decide)

/-! ## Chunk record identifiers (`VectorStoreService.add_documents`)

`add_documents` derives the Chroma record id of a chunk by the Python
f-string `f"doc_{chunk.document_id}_chunk_{chunk.chunk_index}"`.  We model
Python's decimal rendering of an integer explicitly. -/

/-- Decimal digit list of a non-negative integer, most significant digit
first: models Python `str` applied to a non-negative `int`. -/
def natDigits (n : Nat) : List Char :=
  if n < 10 then [Nat.digitChar n]
  else natDigits (n / 10) ++ [Nat.digitChar (n % 10)]
decreasing_by exact Nat.div_lt_self (by omega) (by omega)

/-- Value of a decimal digit list (left fold), used to invert `natDigits`. -/
def digitsVal (l : List Char) : Nat :=
  l.foldl (fun a c => a * 10 + (c.toNat - 48)) 0

theorem digitChar_toNat_of_lt {m : Nat} (h : m < 10) :
    (Nat.digitChar m).toNat - 48 = m := by
  interval_cases m <;> decide

theorem digitChar_ne_underscore {m : Nat} (h : m < 10) :
    Nat.digitChar m ≠ '_' := by
  interval_cases m <;> decide

theorem digitsVal_append_digit (l : List Char) (c : Char) :
    digitsVal (l ++ [c]) = digitsVal l * 10 + (c.toNat - 48) := by
  simp [digitsVal, List.foldl_append]

theorem digitsVal_natDigits (n : Nat) : digitsVal (natDigits n) = n := by
  induction n using Nat.strong_induction_on with
  | _ n ih =>
    rw [natDigits]
    split
    · next h => simp [digitsVal, digitChar_toNat_of_lt h]
    · next h =>
      rw [digitsVal_append_digit, ih (n / 10) (Nat.div_lt_self (by omega) (by omega)),
        digitChar_toNat_of_lt (Nat.mod_lt _ (by omega))]
      omega

theorem natDigits_injective {a b : Nat} (h : natDigits a = natDigits b) :
    a = b := by
  have := congrArg digitsVal h
  simpa [digitsVal_natDigits] using this

theorem underscore_not_mem_natDigits (n : Nat) : '_' ∉ natDigits n := by
  induction n using Nat.strong_induction_on with
  | _ n ih =>
    rw [natDigits]
    split
    · next h => simpa using (digitChar_ne_underscore h).symm
    · next h =>
      intro hmem
      rcases List.mem_append.1 hmem with hl | hr
      · exact ih (n / 10) (Nat.div_lt_self (by omega) (by omega)) hl
      · simp at hr
        exact digitChar_ne_underscore (Nat.mod_lt _ (by omega)) hr.symm

/-- Splitting at an underscore separator is unambiguous when neither prefix
contains an underscore. -/
theorem append_underscore_inj :
    ∀ (a₁ a₂ x₁ x₂ : List Char), '_' ∉ a₁ → '_' ∉ a₂ →
      a₁ ++ '_' :: x₁ = a₂ ++ '_' :: x₂ → a₁ = a₂ ∧ x₁ = x₂ := by
  intro a₁
  induction a₁ with
  | nil =>
    intro a₂ x₁ x₂ _ h2 h
    cases a₂ with
    | nil => simpa using h
    | cons c t =>
      simp only [List.nil_append, List.cons_append, List.cons.injEq] at h
      exact absurd (h.1 ▸ List.mem_cons_self c t) h2
  | cons c t ih =>
    intro a₂ x₁ x₂ h1 h2 h
    cases a₂ with
    | nil =>
      simp only [List.nil_append, List.cons_append, List.cons.injEq] at h
      exact absurd (h.1 ▸ List.mem_cons_self c t) h1
    | cons c' t' =>
      simp only [List.cons_append, List.cons.injEq] at h
      have ht := ih t' x₁ x₂ (fun hm => h1 (List.mem_cons_of_mem _ hm))
        (fun hm => h2 (List.mem_cons_of_mem _ hm)) h.2
      exact ⟨by rw [h.1, ht.1], ht.2⟩

/-- Python `str` of a non-negative integer. -/
def natStr (n : Nat) : String := ⟨natDigits n⟩

/-- Python `str` of an arbitrary integer (sign prefix when negative). -/
def intStr (n : Int) : String :=
  if n < 0 then "-" ++ natStr n.natAbs else natStr n.natAbs

/-- The Chroma record id derived in `VectorStoreService.add_documents`:
`f"doc_{chunk.document_id}_chunk_{chunk.chunk_index}"`. -/
def chunk_record_id (document_id : Int) (chunk_index : Nat) : String :=
  "doc_" ++ intStr document_id ++ "_chunk_" ++ natStr chunk_index

theorem string_data_append (s t : String) : (s ++ t).data = s.data ++ t.data :=
  rfl

/-- C6: over non-negative document ids and chunk indices, the derived chunk
id determines the pair `(documentId, chunkIndex)`: the decimal digit blocks
contain no underscore, so the `_chunk_` separator splits the string
unambiguously. -/
theorem chunk_record_id_injective (d₁ i₁ d₂ i₂ : Nat)
    (h : chunk_record_id d₁ i₁ = chunk_record_id d₂ i₂) :
    d₁ = d₂ ∧ i₁ = i₂ := by
  have hd : ∀ d : Nat, intStr (d : Int) = natStr d := by
    intro d
    simp [intStr]
  rw [chunk_record_id, chunk_record_id, hd, hd] at h
  have hdata := congrArg String.data h
  simp only [string_data_append, List.append_assoc, natStr] at hdata
  simp only [List.cons_append, List.nil_append, List.cons.injEq, true_and] at hdata
  have hsplit := append_underscore_inj _ _ _ _
    (underscore_not_mem_natDigits d₁) (underscore_not_mem_natDigits d₂) hdata
  have hi : natDigits i₁ = natDigits i₂ := by
    have := hsplit.2
    simpa using this
  exact ⟨natDigits_injective hsplit.1, natDigits_injective hi⟩

/-- Witness for `chunk_record_id_injective` at a concrete chunk id pair. -/
theorem chunk_record_id_injective_witness : (37 : Nat) = 37 ∧ (5 : Nat) = 5 :=
  chunk_record_id_injective 37 5 37 5 rfl

/-! ## Metadata dicts and the chunker (`TextChunker.chunk_text`) -/

/-- The integer-valued entries of a Python metadata dict, as a shadowing
association list: an entry added later is consed on and shadows an earlier
binding of the same key, which models dict update/merge under lookup.  The
string-valued entries the pipeline also stores (file name, file type,
timestamp) play no role in any property proved here and are not modelled. -/
abbrev Metadata := List (String × Int)

/-- Python `dict.get(k, d)`. -/
def dictGetD (md : Metadata) (k : String) (d : Int) : Int :=
  match md.lookup k with
  | some v => v
  | none => d

/-- Python `dict` update / `{**md, k: v}` for a single key. -/
def dictSet (md : Metadata) (k : String) (v : Int) : Metadata :=
  (k, v) :: md

/-- The `DocumentChunk` pydantic model of `backend/app/models/document.py`. -/
structure DocumentChunk where
  document_id : Int
  chunk_index : Nat
  content : String
  metadata : Metadata
deriving DecidableEq, Repr

/-- The `for i, chunk in enumerate(chunks)` loop body of
`TextChunker.chunk_text`: each split string becomes a `DocumentChunk` whose
`document_id` is `metadata.get("document_id", 0)` and whose metadata gains
`chunk_index`, `chunk_size` and `total_chunks` entries. -/
def chunk_text_go (metadata : Metadata) (total : Nat) :
    Nat → List String → List DocumentChunk
  | _, [] => []
  | i, chunk :: rest =>
      { document_id := dictGetD metadata "document_id" 0
        chunk_index := i
        content := chunk
        metadata := dictSet (dictSet (dictSet metadata "chunk_index" i)
          "chunk_size" chunk.length) "total_chunks" total } ::
      chunk_text_go metadata total (i + 1) rest

/-- Embedding of `TextChunker.chunk_text`.  The call to the external
`RecursiveCharacterTextSplitter.split_text` collaborator is abstracted: its
output list of chunk strings is the `splits` argument, enumerated exactly as
the Python loop does. -/
def chunk_text (splits : List String) (metadata : Metadata) :
    List DocumentChunk :=
  chunk_text_go metadata splits.length 0 splits

theorem chunk_text_go_length (md : Metadata) (total : Nat) :
    ∀ (i : Nat) (l : List String), (chunk_text_go md total i l).length = l.length := by
  intro i l
  induction l generalizing i with
  | nil => rfl
  | cons c rest ih => simp [chunk_text_go, ih]

/-- One chunk per split string. -/
theorem chunk_text_length (splits : List String) (md : Metadata) :
    (chunk_text splits md).length = splits.length :=
  chunk_text_go_length md splits.length 0 splits

theorem chunk_text_go_document_id (md : Metadata) (total : Nat) :
    ∀ (i : Nat) (l : List String) (c : DocumentChunk),
      c ∈ chunk_text_go md total i l →
      c.document_id = dictGetD md "document_id" 0 := by
  intro i l
  induction l generalizing i with
  | nil => intro c hc; simp [chunk_text_go] at hc
  | cons s rest ih =>
    intro c hc
    rcases List.mem_cons.1 hc with h | h
    · rw [h]
    · exact ih (i + 1) c h

theorem chunk_text_go_id_getD (md : Metadata) (total : Nat) :
    ∀ (i j : Nat) (l : List String), j < l.length →
      ((chunk_text_go md total i l).map
        (fun c => chunk_record_id c.document_id c.chunk_index)).getD j "" =
      chunk_record_id (dictGetD md "document_id" 0) (i + j) := by
  intro i j l
  induction l generalizing i j with
  | nil => intro h; simp at h
  | cons s rest ih =>
    intro h
    cases j with
    | zero => simp [chunk_text_go]
    | succ j =>
      have h2 : j < rest.length := by simpa using Nat.lt_of_succ_lt_succ h
      simp only [chunk_text_go, List.map_cons, List.getD_cons_succ]
      rw [ih (i + 1) j h2]
      congr 1
      omega

/-- C9: a `chunk_text` call whose metadata lacks a `"document_id"` entry
produces chunks whose `document_id` is the default `0`; consequently the
record ids derived for two different documents chunked without that entry
collide position by position. -/
theorem chunk_text_missing_document_id :
    (∀ (splits : List String) (md : Metadata) (c : DocumentChunk),
       md.lookup "document_id" = none → c ∈ chunk_text splits md →
       c.document_id = 0) ∧
    (∀ (s₁ s₂ : List String) (md₁ md₂ : Metadata) (j : Nat),
       md₁.lookup "document_id" = none → md₂.lookup "document_id" = none →
       j < s₁.length → j < s₂.length →
       ((chunk_text s₁ md₁).map
         (fun c => chunk_record_id c.document_id c.chunk_index)).getD j "" =
       ((chunk_text s₂ md₂).map
         (fun c => chunk_record_id c.document_id c.chunk_index)).getD j "") := by
  constructor
  · intro splits md c hmd hc
    rw [chunk_text_go_document_id md splits.length 0 splits c hc]
    simp [dictGetD, hmd]
  · intro s₁ s₂ md₁ md₂ j h₁ h₂ hj₁ hj₂
    rw [chunk_text, chunk_text, chunk_text_go_id_getD md₁ s₁.length 0 j s₁ hj₁,
      chunk_text_go_id_getD md₂ s₂.length 0 j s₂ hj₂]
    simp [dictGetD, h₁, h₂]

/-- Witness for `chunk_text_missing_document_id`: one-chunk and two-chunk
documents chunked without a `document_id` entry get the same first record
id. -/
theorem chunk_text_missing_document_id_witness :
    ((chunk_text ["ab"] []).map
      (fun c => chunk_record_id c.document_id c.chunk_index)).getD 0 "" =
    ((chunk_text ["xy", "z"] []).map
      (fun c => chunk_record_id c.document_id c.chunk_index)).getD 0 "" :=
  chunk_text_missing_document_id.2 ["ab"] ["xy", "z"] [] [] 0 rfl rfl
    (by decide) (by decide)

/-! ## Vector store (`VectorStoreService`) and the ingestion pipeline
(`DocumentIngestionPipeline.ingest_document`)

The pipeline's collaborator calls — `Path(file_path).stat()`, the
format-specific extractor, `split_text`, the embedding backend, and the raw
`collection.add` call — can each raise; their outcomes are `Except`-valued
arguments.  Python's `try/except` becomes the sequential match on those
outcomes. -/

/-- A record stored in the Chroma collection: embedding vector, document
text, metadata.  The embedding payload type `E` is abstract — the pipeline
never inspects vectors. -/
structure StoredRecord (E : Type) where
  embedding : E
  document : String
  metadata : Metadata
deriving DecidableEq, Repr

/-- The Chroma collection contents: records keyed by record id, in insertion
order. -/
abbrev Store (E : Type) := List (String × StoredRecord E)

/-- Chroma `collection.add`: inserts the records whose ids are not already
present in the collection; a record whose id already exists is skipped and
the stored record is not overwritten (`add`, unlike `upsert`, never
replaces).  The pipeline's batches carry distinct ids (distinct chunk
indices), so intra-batch duplicate handling is not modelled. -/
def collection_add {E : Type} (store : Store E)
    (recs : List (String × StoredRecord E)) : Store E :=
  store ++ recs.filter (fun r => !((store.map Prod.fst).contains r.1))

/-- Adding the same batch a second time changes nothing: every id of the
batch is already present after the first add. -/
theorem collection_add_idem {E : Type} (store : Store E)
    (recs : List (String × StoredRecord E)) :
    collection_add (collection_add store recs) recs =
      collection_add store recs := by
  have hnil : recs.filter
      (fun r => !(((collection_add store recs).map Prod.fst).contains r.1)) = [] := by
    rw [List.filter_eq_nil_iff]
    intro r hr
    have hmem : r.1 ∈ (collection_add store recs).map Prod.fst := by
      rw [collection_add, List.map_append, List.mem_append]
      by_cases hs : (store.map Prod.fst).contains r.1 = true
      · exact Or.inl (by simpa using hs)
      · refine Or.inr
          (List.mem_map_of_mem Prod.fst (List.mem_filter.2 ⟨hr, ?_⟩))
        have hs2 : (store.map Prod.fst).contains r.1 = false :=
          Bool.eq_false_iff.2 hs
        rw [hs2]
        rfl
    simp [hmem]
  show collection_add store recs ++ _ = collection_add store recs
  rw [hnil, List.append_nil]

/-- The result dict returned by `ingest_document`.  The wall-clock
`processing_time` entry is not modelled. -/
structure IngestResult where
  document_id : Int
  status : String
  chunks_created : Option Nat
  total_characters : Option Nat
  error : Option String
deriving DecidableEq, Repr

/-- The dict built by `ingest_document`'s `except` clause. -/
def errorResult (document_id : Int) (e : String) : IngestResult :=
  ⟨document_id, "error", none, none, some e⟩

/-- Embedding of `DocumentProcessor.extract_text_from_file`: re-raises any
failure of the format-specific extractor (a black-box collaborator whose
outcome is the `raw` argument) wrapped in a stage-identifying message. -/
def extract_text_from_file (file_path : String)
    (raw : Except String String) : Except String String :=
  match raw with
  | .ok t => .ok t
  | .error e => .error ("Error extracting text from " ++ file_path ++ ": " ++ e)

/-- Embedding of `EmbeddingService.generate_embeddings`: re-raises any
embedding-backend failure wrapped in a stage-identifying message. -/
def generate_embeddings {E : Type} (raw : Except String (List E)) :
    Except String (List E) :=
  match raw with
  | .ok v => .ok v
  | .error e => .error ("Error generating embeddings: " ++ e)

/-- Embedding of `VectorStoreService.add_documents`: derives each chunk's record id,
pairs chunks with their embeddings, and calls `collection.add`; any
store-side failure (`rawAdd`) is re-raised wrapped in a stage-identifying
message, and on failure nothing is written. -/
def add_documents {E : Type} (chunks : List DocumentChunk)
    (embeddings : List E) (rawAdd : Except String Unit) (store : Store E) :
    Except String (Store E) :=
  match rawAdd with
  | .error e => .error ("Error adding documents to vector store: " ++ e)
  | .ok _ =>
      .ok (collection_add store
        ((chunks.zip embeddings).map fun ce =>
          (chunk_record_id ce.1.document_id ce.1.chunk_index,
           ⟨ce.2, ce.1.content, ce.1.metadata⟩)))

/-- Embedding of `DocumentIngestionPipeline.ingest_document`.  Stage order
follows the source: `stat`, metadata update (its integer-valued entries),
extraction, chunking, embedding, store write; the surrounding `try/except`
turns the first failure into the error dict and leaves the store as it
was. -/
def ingest_document {E : Type} (document_id : Int) (file_path : String)
    (statResult : Except String Int)
    (extractRaw : Except String String)
    (splitResult : Except String (List String))
    (embedRaw : Except String (List E))
    (addRaw : Except String Unit)
    (metadata : Metadata) (store : Store E) : IngestResult × Store E :=
  match statResult with
  | .error e => (errorResult document_id e, store)
  | .ok file_size =>
    let md := dictSet (dictSet metadata "document_id" document_id)
      "file_size" file_size
    match extract_text_from_file file_path extractRaw with
    | .error e => (errorResult document_id e, store)
    | .ok text_content =>
      match splitResult with
      | .error e => (errorResult document_id e, store)
      | .ok splits =>
        let chunks := chunk_text splits md
        match generate_embeddings embedRaw with
        | .error e => (errorResult document_id e, store)
        | .ok embeddings =>
          match add_documents chunks embeddings addRaw store with
          | .error e => (errorResult document_id e, store)
          | .ok newStore =>
            (⟨document_id, "success", some chunks.length,
              some text_content.length, none⟩, newStore)

/-- C4: when the embedding stage fails, the run returns the error dict with
the stage-wrapped reason and the store is returned exactly as it was — the
store write is never reached, so no partial subset of the failed run's
chunks can appear. -/
theorem embedding_failure_leaves_store_unchanged {E : Type}
    (document_id : Int) (file_path : String) (file_size : Int)
    (text : String) (splits : List String) (e : String)
    (addRaw : Except String Unit) (md : Metadata) (store : Store E) :
    ingest_document document_id file_path (.ok file_size) (.ok text)
        (.ok splits) (.error e) addRaw md store =
      (errorResult document_id ("Error generating embeddings: " ++ e), store) ∧
    (ingest_document document_id file_path (.ok file_size) (.ok text)
        (.ok splits) (.error e) addRaw md store).1.status = "error" :=
  ⟨rfl, rfl⟩

/-- C5: re-running a fully successful ingestion of the same document with
the same split, embeddings and metadata leaves the store exactly as after
the first run (in particular the chunk count and the record-id set are
unchanged), and both runs report success. -/
theorem reingest_idempotent {E : Type} (document_id : Int)
    (file_path : String) (file_size : Int) (text : String)
    (splits : List String) (embs : List E) (md : Metadata) (store : Store E) :
    (ingest_document document_id file_path (.ok file_size) (.ok text)
        (.ok splits) (.ok embs) (.ok ()) md
        (ingest_document document_id file_path (.ok file_size) (.ok text)
          (.ok splits) (.ok embs) (.ok ()) md store).2).2 =
      (ingest_document document_id file_path (.ok file_size) (.ok text)
        (.ok splits) (.ok embs) (.ok ()) md store).2 ∧
    (ingest_document document_id file_path (.ok file_size) (.ok text)
        (.ok splits) (.ok embs) (.ok ()) md store).1.status = "success" ∧
    (ingest_document document_id file_path (.ok file_size) (.ok text)
        (.ok splits) (.ok embs) (.ok ()) md
        (ingest_document document_id file_path (.ok file_size) (.ok text)
          (.ok splits) (.ok embs) (.ok ()) md store).2).1.status
      = "success" := by
  refine ⟨?_, rfl, rfl⟩
  show collection_add (collection_add store _) _ = collection_add store _
  exact collection_add_idem store _

/-- C8 counterexample: a run whose extraction stage fails with raw reason
`"corrupt"` and a run whose chunking stage fails with the raw reason that
happens to equal the former's wrapped message return *identical* result
dicts (and stores), so the failed stage is not identifiable from the
result — it has no stage field and chunking failures are not wrapped. -/
theorem failed_stage_not_identified :
    ingest_document (E := Nat) 1 "a.txt" (.ok 5) (.error "corrupt")
        (.ok ["hello"]) (.ok [7]) (.ok ()) [] [] =
      ingest_document (E := Nat) 1 "a.txt" (.ok 5) (.ok "hello")
        (.error "Error extracting text from a.txt: corrupt") (.ok [7])
        (.ok ()) [] [] ∧
    ingest_document (E := Nat) 1 "a.txt" (.ok 5) (.error "corrupt")
        (.ok ["hello"]) (.ok [7]) (.ok ()) [] [] =
      (errorResult 1 "Error extracting text from a.txt: corrupt", []) := by
  constructor <;> rfl

/-- C8 amended: every failing run reports status `"error"` together with the
failure reason; extraction, embedding and indexing failures carry
stage-identifying message wrappers, but there is no structured stage field
and a chunking-stage failure propagates its raw reason with no stage
marker. -/
theorem failure_stage_wrapping (E : Type) :
    (∀ (document_id : Int) (file_path e : String) (fsz : Int)
       (splitR : Except String (List String)) (embedR : Except String (List E))
       (addR : Except String Unit) (md : Metadata) (st : Store E),
       (ingest_document document_id file_path (.ok fsz) (.error e) splitR
          embedR addR md st).1 =
         errorResult document_id
           ("Error extracting text from " ++ file_path ++ ": " ++ e)) ∧
    (∀ (document_id : Int) (file_path text e : String) (fsz : Int)
       (embedR : Except String (List E)) (addR : Except String Unit)
       (md : Metadata) (st : Store E),
       (ingest_document document_id file_path (.ok fsz) (.ok text) (.error e)
          embedR addR md st).1 = errorResult document_id e) ∧
    (∀ (document_id : Int) (file_path text e : String) (fsz : Int)
       (splits : List String) (addR : Except String Unit) (md : Metadata)
       (st : Store E),
       (ingest_document document_id file_path (.ok fsz) (.ok text)
          (.ok splits) (.error e) addR md st).1 =
         errorResult document_id ("Error generating embeddings: " ++ e)) ∧
    (∀ (document_id : Int) (file_path text e : String) (fsz : Int)
       (splits : List String) (embs : List E) (md : Metadata) (st : Store E),
       (ingest_document document_id file_path (.ok fsz) (.ok text)
          (.ok splits) (.ok embs) (.error e) md st).1 =
         errorResult document_id
           ("Error adding documents to vector store: " ++ e)) :=
  ⟨fun _ _ _ _ _ _ _ _ _ => rfl, fun _ _ _ _ _ _ _ _ _ => rfl,
   fun _ _ _ _ _ _ _ _ _ => rfl, fun _ _ _ _ _ _ _ _ _ => rfl⟩

/-- C10: `ingest_document` is total over every combination of stage
outcomes: it always returns a result dict carrying the document id; the
status is either `"success"` or `"error"`; an error result carries the
exception message; a success result carries a `chunks_created` count equal
to the number of chunks produced from the split. -/
theorem ingest_document_total {E : Type} (document_id : Int)
    (file_path : String) (statR : Except String Int)
    (extractRaw : Except String String) (splitR : Except String (List String))
    (embedRaw : Except String (List E)) (addRaw : Except String Unit)
    (md : Metadata) (store : Store E) :
    (ingest_document document_id file_path statR extractRaw splitR embedRaw
        addRaw md store).1.document_id = document_id ∧
    ((ingest_document document_id file_path statR extractRaw splitR embedRaw
        addRaw md store).1.status = "success" ∨
      (ingest_document document_id file_path statR extractRaw splitR embedRaw
        addRaw md store).1.status = "error") ∧
    ((ingest_document document_id file_path statR extractRaw splitR embedRaw
        addRaw md store).1.status = "error" →
      ∃ e, (ingest_document document_id file_path statR extractRaw splitR
        embedRaw addRaw md store).1.error = some e) ∧
    ((ingest_document document_id file_path statR extractRaw splitR embedRaw
        addRaw md store).1.status = "success" →
      ∃ splits, splitR = Except.ok splits ∧
        (ingest_document document_id file_path statR extractRaw splitR
          embedRaw addRaw md store).1.chunks_created = some splits.length) := by
  cases statR with
  | error e => exact ⟨rfl, Or.inr rfl, fun _ => ⟨e, rfl⟩,
      fun h => absurd h (show ("error" : String) ≠ "success" by decide)⟩
  | ok fsz =>
    cases extractRaw with
    | error e => exact ⟨rfl, Or.inr rfl, fun _ => ⟨_, rfl⟩,
        fun h => absurd h (show ("error" : String) ≠ "success" by decide)⟩
    | ok text =>
      cases splitR with
      | error e => exact ⟨rfl, Or.inr rfl, fun _ => ⟨e, rfl⟩,
          fun h => absurd h (show ("error" : String) ≠ "success" by decide)⟩
      | ok splits =>
        cases embedRaw with
        | error e => exact ⟨rfl, Or.inr rfl, fun _ => ⟨_, rfl⟩,
            fun h => absurd h (show ("error" : String) ≠ "success" by decide)⟩
        | ok embs =>
          cases addRaw with
          | error e => exact ⟨rfl, Or.inr rfl, fun _ => ⟨_, rfl⟩,
              fun h => absurd h (show ("error" : String) ≠ "success" by decide)⟩
          | ok u =>
            refine ⟨rfl, Or.inl rfl, fun h => absurd h (show ("success" : String) ≠ "error" by decide),
              fun _ => ⟨splits, rfl, ?_⟩⟩
            show some (chunk_text splits
              (dictSet (dictSet md "document_id" document_id)
                "file_size" fsz)).length = some splits.length
            rw [chunk_text_length]

/-- Witness for `ingest_document_total` at a concrete failing run. -/
theorem ingest_document_total_witness :
    ∃ e, (ingest_document (E := Nat) 7 "f.txt" (.error "no such file")
      (.ok "t") (.ok []) (.ok []) (.ok ()) [] []).1.error = some e :=
  (ingest_document_total 7 "f.txt" (.error "no such file") (.ok "t") (.ok [])
    (.ok []) (.ok ()) [] []).2.2.1 rfl

/-! ## Relevance scoring (`DocumentRetrievalTool._arun`) -/

/-- Relevance scoring in `DocumentRetrievalTool._arun` of
`backend/app/services/rag_pipeline.py`: `1 - result.get('distance', 0)`,
with Python float arithmetic modelled as exact rational arithmetic.  No
clamping is applied anywhere on the path to the caller. -/
def tool_relevance (distance : Option ℚ) : ℚ := 1 - distance.getD 0

/-- C7 counterexample: a cosine distance of `3/2` (near-orthogonal vectors
can exceed `1`) yields relevance `-1/2`, which is negative and propagated
unclamped — the claimed clamping to `[0, 1]` does not exist in the code. -/
theorem relevance_negative_propagated :
    tool_relevance (some (3 / 2)) = -(1 / 2) ∧
    tool_relevance (some (3 / 2)) < 0 := by
  constructor <;> norm_num [tool_relevance]

/-- C7 amended: the relevance score is computed as `1 - distance` (with a
missing distance defaulting to `0`) and is *not* clamped: it lies in
`[0, 1]` exactly when the distance lies in `[0, 1]`, and a distance above
`1` produces a negative relevance. -/
theorem relevance_unclamped (d : ℚ) :
    tool_relevance (some d) = 1 - d ∧
    tool_relevance none = 1 ∧
    (0 ≤ d → d ≤ 1 → 0 ≤ tool_relevance (some d) ∧
      tool_relevance (some d) ≤ 1) ∧
    (1 < d → tool_relevance (some d) < 0) := by
  refine ⟨rfl, by norm_num [tool_relevance], fun h1 h2 => ⟨?_, ?_⟩,
    fun h => ?_⟩ <;>
    simp only [tool_relevance, Option.getD_some] <;> linarith

/-- Witness for `relevance_unclamped` at the in-range distance `1/2`. -/
theorem relevance_unclamped_witness :
    0 ≤ tool_relevance (some (1 / 2)) ∧ tool_relevance (some (1 / 2)) ≤ 1 :=
  (relevance_unclamped (1 / 2)).2.2.1 (by norm_num) (by norm_num)

end KnowledgeAssistant
